import Mathlib

/-!
Verification of userportal/common.py: authorization decorators, allocation
lookup helpers and the Prometheus client wrapper, embedded shallowly.

Modelling conventions:
- An HTTP request carries the fields the code reads from request.META:
  the username and the staff flag.
- The LDAP directory is a list of allocation records; the Django queryset
  call objects.filter(...).get() is modelled by filtering the list and
  applying qs_get, which mirrors get(): it raises DoesNotExist on zero
  rows and MultipleObjectsReturned on two or more.
- A decorated view is summarised by an Outcome: the wrapped handler was
  invoked, a concrete HTTP response was returned without invoking it, or
  an uncaught exception propagated.
- convert_ldap_to_allocation lives in the external ccldap package, so the
  aggregation it performs is abstracted as a lookup function from an
  account name to the list of aggregated allocation dicts; an aggregated
  allocation dict is modelled by its optional cpu and gpu entries.
- The Prometheus backend (custom_query_range) is abstracted as a function
  from the query arguments to the list of raw series. datetime.now() is
  an explicit now parameter. datetime.fromtimestamp and float() are
  modelled as injective wrappers, since the claims only concern the
  structure of the normalisation, not numeric semantics.
- Python rstrip(chars) removes trailing characters drawn from the given
  character set; pyRstrip reproduces exactly that.
-/

namespace UserPortal

/-- HTTP response kinds relevant to the access policy. The code only ever
constructs HttpResponseNotFound; forbidden is present so that the policy
of hiding existence is expressible. -/
inductive HttpResponse where
  | notFound
  | forbidden
deriving DecidableEq, Repr

/-- Exceptions that can propagate out of the modelled code. -/
inductive PyError where
  | doesNotExist
  | multipleObjectsReturned
  | valueError
deriving DecidableEq, Repr

/-- Result of running a decorated view: the wrapped handler ran, or a
response was returned without running it, or an exception escaped. -/
inductive Outcome where
  | invoked
  | resp (r : HttpResponse)
  | raised (e : PyError)
deriving DecidableEq, Repr

/-- The fields of request.META that the decorators read. -/
structure Request where
  username : String
  is_staff : Bool
deriving DecidableEq, Repr

/-- An LdapAllocation record as filtered by the code: a name, a member
list and a status string. -/
structure LdapAllocation where
  name : String
  members : List String
  status : String
deriving DecidableEq, Repr

/-- Split a character list at every occurrence of the separator, keeping
empty pieces, as Python str.split with an explicit separator does. -/
def splitChars (sep : Char) : List Char → List (List Char)
  | [] => [[]]
  | c :: rest =>
    if c = sep then
      [] :: splitChars sep rest
    else
      match splitChars sep rest with
      | [] => [[c]]
      | piece :: pieces => (c :: piece) :: pieces

/-- Python str.split(sep): the list of pieces between separators; on the
empty string it is a single empty piece. -/
def pySplit (s : String) (sep : Char) : List String :=
  (splitChars sep s.data).map String.mk

/-- Python str.endswith(suffix), as a structurally computable check. -/
def pyEndsWith (s suf : String) : Bool :=
  s.data.reverse.take suf.data.length == suf.data.reverse

/-- Django queryset get(): exactly one row, else DoesNotExist on zero
rows or MultipleObjectsReturned on several. -/
def qs_get {α : Type} : List α → Except PyError α
  | [] => .error .doesNotExist
  | [a] => .ok a
  | _ :: _ :: _ => .error .multipleObjectsReturned

/-- LdapAllocation.objects.filter(name=..., members=..., status=...). -/
def ldap_filter_account (dir : List LdapAllocation) (name username status : String) :
    List LdapAllocation :=
  dir.filter (fun a => a.name == name && a.members.contains username && a.status == status)

/-- LdapAllocation.objects.filter(members=..., status=...). -/
def ldap_filter_member (dir : List LdapAllocation) (username status : String) :
    List LdapAllocation :=
  dir.filter (fun a => a.members.contains username && a.status == status)

/-- user_or_staff: run the handler when the requester is the subject user
or staff, otherwise return HttpResponseNotFound. -/
def user_or_staff (request : Request) (kwargs_username : String) : Outcome :=
  if request.username == kwargs_username then
    .invoked
  else if request.is_staff then
    .invoked
  else
    .resp .notFound

/-- account_or_staff: staff passes; otherwise the account kwarg is split
on the underscore, the first piece is the allocation name, and get() is
run on the active-membership filter. Only DoesNotExist is caught and
turned into HttpResponseNotFound; any other exception propagates. -/
def account_or_staff (dir : List LdapAllocation) (request : Request)
    (kwargs_account : String) : Outcome :=
  let alloc_name := (pySplit kwargs_account '_').headD ""
  if request.is_staff then
    .invoked
  else
    match qs_get (ldap_filter_account dir alloc_name request.username "active") with
    | .error .doesNotExist => .resp .notFound
    | .error e => .raised e
    | .ok _ => .invoked

/-- openstackproject_or_staff: the LDAP membership branch is a TODO in
the code, so every non-staff request falls into HttpResponseNotFound and
the trailing call of the handler is dead code. -/
def openstackproject_or_staff (request : Request) : Outcome :=
  if request.is_staff then
    .invoked
  else
    .resp .notFound

/-- staff: run the handler for staff only, otherwise HttpResponseNotFound. -/
def staff (request : Request) : Outcome :=
  if request.is_staff then
    .invoked
  else
    .resp .notFound

/-- compute_default_allocation_by_user: loop over the active allocations
of the user, appending the names that start with the def- prefix. -/
def compute_default_allocation_by_user (dir : List LdapAllocation)
    (username : String) : List String :=
  (ldap_filter_member dir username "active").foldl
    (fun allocs alloc =>
      if alloc.name.startsWith "def-" then allocs ++ [alloc.name] else allocs)
    []

/-- Python str.rstrip(chars): remove every trailing character that is a
member of the given character set. -/
def pyRstrip (s : String) (chars : String) : String :=
  String.mk ((s.data.reverse.dropWhile (fun c => chars.data.contains c)).reverse)

/-- An aggregated allocation dict produced by convert_ldap_to_allocation,
reduced to the two keys the code reads; none models an absent key. -/
structure AggAllocation where
  cpu : Option Int
  gpu : Option Int
deriving DecidableEq, Repr

/-- The loop: for alloc in allocations, if the gpu key is present return
its value. -/
def first_quota_gpu : List AggAllocation → Option Int
  | [] => none
  | alloc :: rest =>
    match alloc.gpu with
    | some v => some v
    | none => first_quota_gpu rest

/-- The loop: for alloc in allocations, if the cpu key is present return
its value. -/
def first_quota_cpu : List AggAllocation → Option Int
  | [] => none
  | alloc :: rest =>
    match alloc.cpu with
    | some v => some v
    | none => first_quota_cpu rest

/-- compute_allocations_by_slurm_account: rstrip the gpu then the cpu
marker characters, look the result up (compute_allocation_by_account and
the external conversion are abstracted by the lookup argument), then scan
for the first gpu or cpu entry depending on the suffix of the original
account; fall through to None. -/
def compute_allocations_by_slurm_account (lookup : String → List AggAllocation)
    (account : String) : Option Int :=
  let account_name := pyRstrip (pyRstrip account "_gpu") "_cpu"
  let allocations := lookup account_name
  if pyEndsWith account "_gpu" then
    first_quota_gpu allocations
  else
    first_quota_cpu allocations

/-- Result of datetime.fromtimestamp, as an injective wrapper around the
timestamp. -/
structure Datetime where
  ts : Int
deriving DecidableEq, Repr

/-- datetime.fromtimestamp. -/
def datetime_fromtimestamp (t : Int) : Datetime := ⟨t⟩

/-- Result of float() applied to a raw Prometheus sample value, as an
injective wrapper around the raw string. -/
structure PyFloat where
  val : String
deriving DecidableEq, Repr

/-- float() on a raw sample string. -/
def pyFloat (s : String) : PyFloat := ⟨s⟩

/-- One raw series returned by custom_query_range: its metric labels and
its timestamp/value pairs. -/
structure RawSeries where
  metric : List (String × String)
  values : List (Int × String)
deriving DecidableEq, Repr

/-- One normalised entry built by query_prometheus_multiple. -/
structure SeriesEntry where
  metric : List (String × String)
  x : List Datetime
  y : List PyFloat
deriving DecidableEq, Repr

/-- The Prometheus backend: custom_query_range as a function of query,
start, end and step. -/
def PromBackend : Type := String → Int → Int → String → List RawSeries

/-- query_prometheus_multiple: default the end time to now, run the range
query, and append one dict per raw series with the metric kept, the
timestamps converted and the values converted. -/
def query_prometheus_multiple (backend : PromBackend) (now : Int)
    (query : String) (start : Int) (endTime : Option Int) (step : String) :
    List SeriesEntry :=
  let endv := match endTime with
    | none => now
    | some e => e
  (backend query start endv step).foldl
    (fun acc line =>
      acc ++ [{ metric := line.metric,
                x := line.values.map (fun p => datetime_fromtimestamp p.1),
                y := line.values.map (fun p => pyFloat p.2) }])
    []

/-- query_prometheus: run the multi-series query with the same arguments,
raise ValueError on an empty result, otherwise return the x and y fields
of the first entry. -/
def query_prometheus (backend : PromBackend) (now : Int) (query : String)
    (duration : Int) (endTime : Option Int) (step : String) :
    Except PyError (List Datetime × List PyFloat) :=
  let values := query_prometheus_multiple backend now query duration endTime step
  match values with
  | [] => .error .valueError
  | v :: _ => .ok (v.x, v.y)

/-- Concrete two-record directory in which both records match the same
filter, for exercising the uncaught MultipleObjectsReturned path. -/
def cexDir : List LdapAllocation :=
  [{ name := "abc", members := ["u"], status := "active" },
   { name := "abc", members := ["u"], status := "active" }]

/-- Concrete aggregation lookup for the slurm-account suffix bug: the
account aug has one aggregated allocation carrying a gpu quota of 7. -/
def cexLookup : String → List AggAllocation :=
  fun s => if s = "aug" then [{ cpu := none, gpu := some 7 }] else []

/-- Concrete Prometheus backend returning one raw series, for witnesses. -/
def cexBackend : PromBackend :=
  fun _ _ _ _ => [{ metric := [("job", "slurm")], values := [(10, "1.5"), (20, "2.5")] }]

/-! Helper lemmas -/

theorem foldl_push_map {α β : Type} (f : α → β) :
    ∀ (l : List α) (acc : List β),
      l.foldl (fun a x => a ++ [f x]) acc = acc ++ l.map f := by
  intro l
  induction l with
  | nil => intro acc; simp
  | cons x xs ih => intro acc; simp [ih]

theorem foldl_push_filter_map {α β : Type} (p : α → Bool) (f : α → β) :
    ∀ (l : List α) (acc : List β),
      l.foldl (fun a x => if p x then a ++ [f x] else a) acc =
        acc ++ (l.filter p).map f := by
  intro l
  induction l with
  | nil => intro acc; simp
  | cons x xs ih =>
    intro acc
    by_cases h : p x <;> simp [List.filter_cons, h, ih]

theorem first_quota_gpu_none :
    ∀ l : List AggAllocation, (∀ a ∈ l, a.gpu = none) → first_quota_gpu l = none := by
  intro l
  induction l with
  | nil => intro _; rfl
  | cons a rest ih =>
    intro h
    have ha : a.gpu = none := h a (List.mem_cons_self a rest)
    simp [first_quota_gpu, ha]
    exact ih (fun b hb => h b (List.mem_cons_of_mem a hb))

theorem first_quota_cpu_none :
    ∀ l : List AggAllocation, (∀ a ∈ l, a.cpu = none) → first_quota_cpu l = none := by
  intro l
  induction l with
  | nil => intro _; rfl
  | cons a rest ih =>
    intro h
    have ha : a.cpu = none := h a (List.mem_cons_self a rest)
    simp [first_quota_cpu, ha]
    exact ih (fun b hb => h b (List.mem_cons_of_mem a hb))

theorem account_or_staff_cases (dir : List LdapAllocation) (request : Request)
    (account : String) :
    account_or_staff dir request account =
      (if request.is_staff then Outcome.invoked
       else
        match ldap_filter_account dir ((pySplit account '_').headD "")
            request.username "active" with
        | [] => Outcome.resp .notFound
        | [_] => Outcome.invoked
        | _ :: _ :: _ => Outcome.raised .multipleObjectsReturned) := by
  unfold account_or_staff
  cases hs : request.is_staff
  · simp only [hs, Bool.false_eq_true, if_false]
    cases ldap_filter_account dir ((pySplit account '_').headD "")
        request.username "active" with
    | nil => rfl
    | cons a t => cases t <;> rfl
  · simp only [hs, if_true]

/-! Claim theorems -/

/-- C3: the wrapper built by user_or_staff invokes the wrapped handler
exactly when the requester username equals the username kwarg or the
requester is staff, and in every other case it returns a not-found
response without invoking the handler. -/
theorem user_or_staff_invokes_iff (request : Request) (uname : String) :
    (user_or_staff request uname = .invoked ↔
      (request.username = uname ∨ request.is_staff = true)) ∧
    (¬(request.username = uname ∨ request.is_staff = true) →
      user_or_staff request uname = .resp .notFound) := by
  unfold user_or_staff
  by_cases h1 : request.username = uname
  · simp [h1]
  · by_cases h2 : request.is_staff = true <;> simp [h1, h2]

/-- Witness for C3 at a concrete denied request. -/
theorem user_or_staff_invokes_iff_witness :
    user_or_staff ⟨"alice", false⟩ "bob" = .resp .notFound :=
  (user_or_staff_invokes_iff ⟨"alice", false⟩ "bob").2 (by decide)

/-- C2 counterexample: with two active allocation records matching the
split account name and membership, the non-staff wrapper neither invokes
the handler nor returns a not-found response: the uncaught Django
MultipleObjectsReturned exception escapes, contradicting the claim that
every non-invoking case returns not-found. -/
theorem account_or_staff_claim_cex :
    (ldap_filter_account cexDir "abc" "u" "active").length = 2 ∧
    account_or_staff cexDir ⟨"u", false⟩ "abc_projx" =
      .raised .multipleObjectsReturned ∧
    account_or_staff cexDir ⟨"u", false⟩ "abc_projx" ≠ .invoked ∧
    account_or_staff cexDir ⟨"u", false⟩ "abc_projx" ≠ .resp .notFound := by
  refine ⟨rfl, rfl, by decide, by decide⟩

/-- C2 amended: the wrapper invokes the handler exactly when the
requester is staff or exactly one allocation record matches the name
before the first underscore with active membership; with no matching
record it returns not-found without invoking the handler; with two or
more matching records the lookup raises MultipleObjectsReturned
uncaught, again without invoking the handler. -/
theorem account_or_staff_amended (dir : List LdapAllocation) (request : Request)
    (account : String) :
    (account_or_staff dir request account = .invoked ↔
      (request.is_staff = true ∨
        (ldap_filter_account dir ((pySplit account '_').headD "")
          request.username "active").length = 1)) ∧
    (request.is_staff = false →
      ldap_filter_account dir ((pySplit account '_').headD "")
        request.username "active" = [] →
      account_or_staff dir request account = .resp .notFound) ∧
    (request.is_staff = false →
      2 ≤ (ldap_filter_account dir ((pySplit account '_').headD "")
        request.username "active").length →
      account_or_staff dir request account = .raised .multipleObjectsReturned) := by
  rw [account_or_staff_cases]
  cases hs : request.is_staff
  · simp only [Bool.false_eq_true, if_false]
    rcases ldap_filter_account dir ((pySplit account '_').headD "")
      request.username "active" with _ | ⟨a, _ | ⟨b, t⟩⟩ <;> simp
  · simp

/-- Witness for C2 amended at a concrete non-staff request over an empty
directory: the not-found branch fires. -/
theorem account_or_staff_amended_witness :
    account_or_staff [] ⟨"u", false⟩ "projname" = .resp .notFound :=
  (account_or_staff_amended [] ⟨"u", false⟩ "projname").2.1 rfl rfl

/-- C4: none of the four decorators can ever produce a forbidden
response: each wrapper either invokes the handler, returns a not-found
response, or (account_or_staff only) raises MultipleObjectsReturned, so
every denial that produces a response produces not-found. -/
theorem decorators_never_forbidden (dir : List LdapAllocation) (request : Request)
    (uname account : String) :
    (user_or_staff request uname = .invoked ∨
      user_or_staff request uname = .resp .notFound) ∧
    (account_or_staff dir request account = .invoked ∨
      account_or_staff dir request account = .resp .notFound ∨
      account_or_staff dir request account = .raised .multipleObjectsReturned) ∧
    (openstackproject_or_staff request = .invoked ∨
      openstackproject_or_staff request = .resp .notFound) ∧
    (staff request = .invoked ∨ staff request = .resp .notFound) := by
  refine ⟨?_, ?_, ?_, ?_⟩
  · unfold user_or_staff
    by_cases h1 : request.username == uname <;>
      by_cases h2 : request.is_staff <;> simp [h1, h2]
  · rw [account_or_staff_cases]
    cases hs : request.is_staff
    · simp only [Bool.false_eq_true, if_false]
      rcases ldap_filter_account dir ((pySplit account '_').headD "")
        request.username "active" with _ | ⟨a, _ | ⟨b, t⟩⟩ <;> simp
    · simp
  · unfold openstackproject_or_staff
    by_cases hs : request.is_staff <;> simp [hs]
  · unfold staff
    by_cases hs : request.is_staff <;> simp [hs]

/-- C8: openstackproject_or_staff denies every non-staff request with a
not-found response and never invokes the handler, whatever the project
membership: the code has no membership lookup at all. -/
theorem openstackproject_or_staff_nonstaff (request : Request)
    (h : request.is_staff = false) :
    openstackproject_or_staff request = .resp .notFound ∧
    openstackproject_or_staff request ≠ .invoked := by
  unfold openstackproject_or_staff
  simp [h]

/-- Witness for C8 at a concrete non-staff request. -/
theorem openstackproject_or_staff_nonstaff_witness :
    openstackproject_or_staff ⟨"u", false⟩ = .resp .notFound :=
  (openstackproject_or_staff_nonstaff ⟨"u", false⟩ rfl).1

/-- C6: compute_default_allocation_by_user returns exactly the names of
the directory records that contain the user as member, have active
status, and whose name starts with the def- prefix, in directory query
order. -/
theorem compute_default_allocation_by_user_names (dir : List LdapAllocation)
    (username : String) :
    compute_default_allocation_by_user dir username =
      (dir.filter (fun a =>
        (a.members.contains username && a.status == "active") &&
          a.name.startsWith "def-")).map LdapAllocation.name := by
  unfold compute_default_allocation_by_user ldap_filter_member
  rw [foldl_push_filter_map, List.filter_filter, List.nil_append]
  exact congrArg (List.map _) (List.filter_congr (fun a _ => Bool.and_comm _ _))

/-- C1: evaluation of compute_allocations_by_slurm_account at the account
aug_gpu. Python rstrip removes trailing characters drawn from the given
set, not a suffix, so the code looks up the account a instead of aug and
returns None, although the aggregated allocations of aug carry a gpu
quota of 7 that the claim (and the function docstring) say should be
returned. -/
theorem compute_allocations_by_slurm_account_rstrip_bug :
    pyRstrip (pyRstrip "aug_gpu" "_gpu") "_cpu" = "a" ∧
    cexLookup "aug" = [{ cpu := none, gpu := some 7 }] ∧
    first_quota_gpu (cexLookup "aug") = some 7 ∧
    pyEndsWith "aug_gpu" "_gpu" = true ∧
    compute_allocations_by_slurm_account cexLookup "aug_gpu" = none := by
  refine ⟨rfl, rfl, rfl, rfl, rfl⟩

/-- C10: whenever no aggregated allocation under the looked-up account
name carries the selected quota key (gpu for accounts ending in _gpu,
cpu otherwise), compute_allocations_by_slurm_account returns None; in
particular it does so when the lookup yields no allocations at all. -/
theorem compute_allocations_by_slurm_account_none (lookup : String → List AggAllocation)
    (account : String)
    (h : ∀ a ∈ lookup (pyRstrip (pyRstrip account "_gpu") "_cpu"),
      (if pyEndsWith account "_gpu" then a.gpu else a.cpu) = none) :
    compute_allocations_by_slurm_account lookup account = none := by
  unfold compute_allocations_by_slurm_account
  cases hg : pyEndsWith account "_gpu"
  · simp only [Bool.false_eq_true, if_false]
    refine first_quota_cpu_none _ (fun a ha => ?_)
    have := h a ha
    simpa [hg] using this
  · simp only [if_true]
    refine first_quota_gpu_none _ (fun a ha => ?_)
    have := h a ha
    simpa [hg] using this

/-- Witness for C10: a lookup with no aggregated allocations gives None. -/
theorem compute_allocations_by_slurm_account_none_witness :
    compute_allocations_by_slurm_account (fun _ => []) "foo_cpu" = none :=
  compute_allocations_by_slurm_account_none (fun _ => []) "foo_cpu"
    (fun a ha => absurd ha (List.not_mem_nil a))

theorem query_prometheus_multiple_eq_map (backend : PromBackend) (now : Int)
    (query : String) (start : Int) (endTime : Option Int) (step : String) :
    query_prometheus_multiple backend now query start endTime step =
      (backend query start (endTime.getD now) step).map
        (fun line =>
          { metric := line.metric,
            x := line.values.map (fun p => datetime_fromtimestamp p.1),
            y := line.values.map (fun p => pyFloat p.2) }) := by
  unfold query_prometheus_multiple
  cases endTime <;> simp [foldl_push_map, Option.getD]

/-- C5: query_prometheus raises exactly when the multi-series query with
the same arguments returns no series, and returns a value whenever at
least one series comes back. -/
theorem query_prometheus_error_iff (backend : PromBackend) (now : Int)
    (query : String) (duration : Int) (endTime : Option Int) (step : String) :
    ((∃ e, query_prometheus backend now query duration endTime step = .error e) ↔
      query_prometheus_multiple backend now query duration endTime step = []) ∧
    (query_prometheus_multiple backend now query duration endTime step ≠ [] →
      ∃ v, query_prometheus backend now query duration endTime step = .ok v) := by
  unfold query_prometheus
  rcases query_prometheus_multiple backend now query duration endTime step with
    _ | ⟨v, rest⟩ <;> simp

/-- Witness for C5 at a backend returning one series: the query does not
raise. -/
theorem query_prometheus_error_iff_witness :
    ∃ v, query_prometheus cexBackend 0 "q" 100 none "3m" = .ok v :=
  (query_prometheus_error_iff cexBackend 0 "q" 100 none "3m").2 (by decide)

/-- C9: whenever the multi-series query yields a first series, the single
query returns exactly the x and y fields of that first series, dropping
its metric labels and every later series. -/
theorem query_prometheus_first_series (backend : PromBackend) (now : Int)
    (query : String) (duration : Int) (endTime : Option Int) (step : String)
    (entry : SeriesEntry) (rest : List SeriesEntry)
    (h : query_prometheus_multiple backend now query duration endTime step =
      entry :: rest) :
    query_prometheus backend now query duration endTime step =
      .ok (entry.x, entry.y) := by
  unfold query_prometheus
  rw [h]

/-- Witness for C9 at a backend returning one concrete series. -/
theorem query_prometheus_first_series_witness :
    query_prometheus cexBackend 0 "q" 100 none "3m" =
      .ok ([⟨10⟩, ⟨20⟩], [⟨"1.5"⟩, ⟨"2.5"⟩]) :=
  query_prometheus_first_series cexBackend 0 "q" 100 none "3m"
    ⟨[("job", "slurm")], [⟨10⟩, ⟨20⟩], [⟨"1.5"⟩, ⟨"2.5"⟩]⟩ [] (by rfl)

/-- C7: query_prometheus_multiple yields one entry per raw series of the
range query result, in the same order, each keeping the metric labels
unchanged, converting every timestamp through datetime_fromtimestamp into
x and every raw value through pyFloat into y, with x and y of equal
length. -/
theorem query_prometheus_multiple_normalizes (backend : PromBackend) (now : Int)
    (query : String) (start : Int) (endTime : Option Int) (step : String) :
    (query_prometheus_multiple backend now query start endTime step).length =
      (backend query start (endTime.getD now) step).length ∧
    (∀ i (h : i < (backend query start (endTime.getD now) step).length),
      ∃ h2 : i < (query_prometheus_multiple backend now query start endTime step).length,
        ((query_prometheus_multiple backend now query start endTime step).get
            ⟨i, h2⟩).metric =
          ((backend query start (endTime.getD now) step).get ⟨i, h⟩).metric ∧
        ((query_prometheus_multiple backend now query start endTime step).get
            ⟨i, h2⟩).x =
          ((backend query start (endTime.getD now) step).get ⟨i, h⟩).values.map
            (fun p => datetime_fromtimestamp p.1) ∧
        ((query_prometheus_multiple backend now query start endTime step).get
            ⟨i, h2⟩).y =
          ((backend query start (endTime.getD now) step).get ⟨i, h⟩).values.map
            (fun p => pyFloat p.2) ∧
        ((query_prometheus_multiple backend now query start endTime step).get
            ⟨i, h2⟩).x.length =
          ((query_prometheus_multiple backend now query start endTime step).get
            ⟨i, h2⟩).y.length) := by
  rw [query_prometheus_multiple_eq_map]
  refine ⟨List.length_map _ _, fun i h => ?_⟩
  refine ⟨by simpa using h, ?_⟩
  rw [List.get_map]
  exact ⟨rfl, rfl, rfl, by simp⟩

/-- Witness for C7 at a backend returning one concrete series, read at
index zero. -/
theorem query_prometheus_multiple_normalizes_witness :
    (query_prometheus_multiple cexBackend 0 "q" 100 none "3m").length =
      (cexBackend "q" 100 ((none : Option Int).getD 0) "3m").length ∧
    ∃ h2 : 0 < (query_prometheus_multiple cexBackend 0 "q" 100 none "3m").length,
      ((query_prometheus_multiple cexBackend 0 "q" 100 none "3m").get
        ⟨0, h2⟩).metric = [("job", "slurm")] := by
  have h := query_prometheus_multiple_normalizes cexBackend 0 "q" 100 none "3m"
  refine ⟨h.1, ?_⟩
  obtain ⟨h2, hm, -, -, -⟩ := h.2 0 (by decide)
  exact ⟨h2, by rw [hm]; rfl⟩

end UserPortal
